import Mathlib

/-!
Verification development for the lance python binding layer
(python/python/lance/util.py): the metric-type normalizer,
the heterogeneous vector-array normalizer feeding KMeans,
and the vector-index recall validator.

Python scalar values that matter here are modelled by the type F32 below:
a float is either NaN or an exact (rational) value.  The source performs
no floating-point arithmetic on these values — it only tests them for NaN
(numpy isnan) and compares them against constants — so the rational model
mirrors the source exactly on the operations it actually uses.
-/

set_option autoImplicit false

deriving instance DecidableEq for Except

namespace LanceUtil

/-- Model of a python/numpy float value: NaN or an exact numeric value. -/
inductive F32 where
  | nan : F32
  | val : ℚ → F32
deriving DecidableEq

/-- The exact rational value of the float literal 1e-6 threshold used by
validate_vector_index, in normalized form. -/
def epsRecall : ℚ := mkRat 1 1000000

/-- Model of numpy isnan on a scalar. -/
def F32.isNaN : F32 → Bool
  | .nan => true
  | .val _ => false

/-- Python abs(x) < eps.  In python, abs(nan) < eps evaluates to False,
which the nan branch reproduces. -/
def F32.absLt (x : F32) (eps : ℚ) : Bool :=
  match x with
  | .nan => false
  | .val q => decide (|q| < eps)

/-- Model of np.isnan(vec).any() for a row vector. -/
def hasNaN (vec : List F32) : Bool := vec.any F32.isNaN

/-- Element dtypes that can appear in the arrays handled by util.py. -/
inductive DType where
  | float32 : DType
  | float64 : DType
  | int32 : DType
  | int64 : DType
deriving DecidableEq

/-- Model of pyarrow FixedSizeListArray: an element type, a fixed list
width, an explicit array length and the flat child values buffer.  A
well-formed arrow array satisfies values.length = length * listSize; the
theorems below carry that invariant where they need it.  Only float32
buffers ever have their values consulted, so a single F32 buffer
suffices for every dtype. -/
structure FixedSizeListArray where
  valueType : DType
  listSize : ℕ
  length : ℕ
  values : List F32
deriving DecidableEq

/-- Model of pyarrow FixedShapeTensorArray: a per-row shape descriptor
and the underlying storage, which in arrow is always a fixed size list
array. -/
structure FixedShapeTensorArray where
  shape : List ℕ
  storage : FixedSizeListArray
deriving DecidableEq

/-- Model of a numpy ndarray: dtype, shape, and the row-major flat data
buffer (consulted only when the dtype is float32). -/
structure NDArray where
  dtype : DType
  shape : List ℕ
  data : List F32
deriving DecidableEq

/-- The dynamic argument of KMeans fit / predict: one of the three
accepted variants, or anything else (a python list, a chunked array, …)
collapsed into the constructor other. -/
inductive PAData where
  | fixedSizeList : FixedSizeListArray → PAData
  | fixedShapeTensor : FixedShapeTensorArray → PAData
  | ndarray : NDArray → PAData
  | other : PAData
deriving DecidableEq

/-- Failure outcomes of the normalizer.  In python every one of these is
a ValueError; the constructors record which of the source messages is
raised.  typeMismatch: "Array must be float32 type, got: …" or "Numpy
array must be float32 type, got: …"; shapeError: "Fixed shape tensor
array must be a 1-D array, got …-D" or "Numpy array must be a 2-D array,
got …-D"; unsupportedType: "Data must be a FixedSizeListArray, Tensor or
numpy array"; invalidListSize: the error pyarrow itself raises from
FixedSizeListArray.from_arrays when the requested list size is not
strictly positive (or does not divide the child length). -/
inductive NormError where
  | typeMismatch : DType → NormError
  | shapeError : ℕ → NormError
  | unsupportedType : NormError
  | invalidListSize : NormError
deriving DecidableEq

/-- Model of pyarrow FixedSizeListArray.from_arrays(values, list_size)
as called on line 146 of util.py with a float32 child array: pyarrow
requires list_size to be a strict positive integer dividing the child
length, and infers the array length as values.length / list_size. -/
def FixedSizeListArray.from_arrays (values : List F32) (list_size : ℕ) :
    Except NormError FixedSizeListArray :=
  if list_size = 0 then .error .invalidListSize
  else if values.length % list_size ≠ 0 then .error .invalidListSize
  else .ok ⟨.float32, list_size, values.length / list_size, values⟩

/-- The FixedSizeListArray branch of KMeans._to_fixed_size_list
(util.py lines 124-129): reject a non-float32 element type, otherwise
the array is already canonical and is returned unchanged. -/
def _to_fixed_size_list_base (a : FixedSizeListArray) :
    Except NormError FixedSizeListArray :=
  if a.valueType ≠ .float32 then .error (.typeMismatch a.valueType)
  else .ok a

/-- Embedding of KMeans._to_fixed_size_list (util.py lines 123-148).
The tensor branch of the source recurses with data.storage, which in
arrow is always a FixedSizeListArray, so that recursion lands in the
FixedSizeListArray branch after one step; the embedding expresses it as
a direct call of that branch (_to_fixed_size_list_base).  The numpy
branch models data.reshape((-1,)) followed by
pa.array(…, type=pa.float32()) as the identity on the already-flat
row-major buffer, exactly as the source flattens before rewrapping. -/
def _to_fixed_size_list : PAData → Except NormError FixedSizeListArray
  | .fixedSizeList a => _to_fixed_size_list_base a
  | .fixedShapeTensor t =>
      if t.shape.length ≠ 1 then .error (.shapeError t.shape.length)
      else _to_fixed_size_list_base t.storage
  | .ndarray m =>
      if m.shape.length ≠ 2 then .error (.shapeError m.shape.length)
      else if m.dtype ≠ .float32 then .error (.typeMismatch m.dtype)
      else FixedSizeListArray.from_arrays m.data (m.shape.getD 1 0)
  | .other => .error .unsupportedType

/-- Python exception outcomes relevant to util.py: ValueError with its
message (both the invalid-metric error and the accuracy failure are
ValueError in the source), the unguarded integer division passes/total,
and the unguarded [0] index into the query result list. -/
inductive PyError where
  | valueError : String → PyError
  | zeroDivisionError : PyError
  | indexError : PyError
deriving DecidableEq

/-- Model of python str.lower on one character: the inputs that occur
here are ascii, where lower maps the letters A-Z (codepoints 65-90) to
their lowercase counterparts and fixes everything else. -/
def lowerChar (c : Char) : Char :=
  if 65 ≤ c.toNat ∧ c.toNat ≤ 90 then Char.ofNat (c.toNat + 32) else c

/-- Model of python str.lower. -/
def pyLower (s : String) : String := ⟨s.data.map lowerChar⟩

/-- Embedding of _normalize_metric_type (util.py lines 22-28). -/
def _normalize_metric_type (metric_type : String) : Except PyError String :=
  let normalized := pyLower metric_type
  let normalized := if normalized = "euclidean" then "l2" else normalized
  if normalized ∉ (["l2", "dot", "cosine"] : List String) then
    .error (.valueError ("Invalid metric_type: " ++ metric_type))
  else .ok normalized

/-- The arguments with which KMeans.__init__ constructs the native
_KMeans model (util.py lines 101-103). -/
structure NativeKMeansCall where
  k : ℕ
  metric_type : String
  max_iters : ℕ
  centroids_arr : Option FixedSizeListArray
deriving DecidableEq

/-- The state a successfully constructed KMeans wrapper holds. -/
structure KMeansModel where
  k : ℕ
  _metric_type : String
  _kmeans : NativeKMeansCall
deriving DecidableEq

/-- Embedding of KMeans.__init__ (util.py lines 78-103): the metric type
is normalized first; only if that succeeds is the native _KMeans model
constructed, with the normalized metric. -/
def KMeans_init (k : ℕ) (metric_type : String) (max_iters : ℕ)
    (centroids : Option FixedSizeListArray) : Except PyError KMeansModel :=
  match _normalize_metric_type metric_type with
  | .error e => .error e
  | .ok mt => .ok ⟨k, mt, ⟨k, mt, max_iters, centroids⟩⟩

/-- The parameter record of the nearest-neighbor query issued by
validate_vector_index (util.py lines 206-213). -/
structure NearestQuery where
  column : String
  q : List F32
  k : ℕ
  nprobes : ℕ
  refine_factor : ℕ
deriving DecidableEq

/-- The dataset collaborator as validate_vector_index uses it:
to_table_col c models dataset.to_table()[c] materialized as row vectors,
sample_col n c models dataset.sample(n)[c], and nearest_distances q
models dataset.to_table(nearest=…)["_distance"].to_pylist(). -/
structure Dataset where
  to_table_col : String → List (List F32)
  sample_col : ℕ → String → List (List F32)
  nearest_distances : NearestQuery → List F32

/-- The working vector set of validate_vector_index (util.py line 197):
the full column when sample_size is None, a sample otherwise. -/
def workingSet (dataset : Dataset) (column : String)
    (sample_size : Option ℕ) : List (List F32) :=
  match sample_size with
  | none => dataset.to_table_col column
  | some n => dataset.sample_col n column

/-- The failure message of util.py lines 218-220, built exactly as the
f-string builds it. -/
def validationMsg (passes total : ℕ) : String :=
  "Vector index failed sanity check, only " ++ toString passes ++ "/"
    ++ toString total ++ " passed"

/-- Embedding of the per-row loop of validate_vector_index (util.py
lines 202-215).  It threads the two counters passes and total exactly as
the source does: a row containing NaN decrements total and is skipped
without a query; otherwise one nearest query is issued with k=1,
nprobes=1 and the given refine factor, the first entry of the _distance
column is read (IndexError when the result set is empty, as the
unguarded [0] in the source), and passes is incremented when the
absolute distance is below 1e-6.  The third component returns the list
of queries issued, in order, as instrumentation for the theorems. -/
def validateLoop (dataset : Dataset) (column : String) (refine_factor : ℕ) :
    List (List F32) → ℕ → ℕ → Except PyError (ℕ × ℕ × List NearestQuery)
  | [], passes, total => .ok (passes, total, [])
  | vec :: rest, passes, total =>
    if hasNaN vec then
      validateLoop dataset column refine_factor rest passes (total - 1)
    else
      match dataset.nearest_distances ⟨column, vec, 1, 1, refine_factor⟩ with
      | [] => .error .indexError
      | distance :: _ =>
        (validateLoop dataset column refine_factor rest
            (passes + if distance.absLt epsRecall then 1 else 0) total).map
          (fun r => (r.1, r.2.1,
            (⟨column, vec, 1, 1, refine_factor⟩ : NearestQuery) :: r.2.2))

/-- Embedding of validate_vector_index (util.py lines 171-220).  The
final comparison passes / total < pass_threshold is python float
division of two ints: when total = 0 python raises ZeroDivisionError
before any comparison happens, which the explicit guard reproduces;
otherwise the rational quotient is compared against the threshold. -/
def validate_vector_index (dataset : Dataset) (column : String)
    (refine_factor : ℕ) (sample_size : Option ℕ) (pass_threshold : ℚ) :
    Except PyError Unit :=
  let vecs := workingSet dataset column sample_size
  match validateLoop dataset column refine_factor vecs 0 vecs.length with
  | .error e => .error e
  | .ok (passes, total, _) =>
    if total = 0 then .error .zeroDivisionError
    else if (passes : ℚ) / (total : ℚ) < pass_threshold then
      .error (.valueError (validationMsg passes total))
    else .ok ()

/-- The rows of a working set that survive the NaN filter. -/
def nonNaNRows (vecs : List (List F32)) : List (List F32) :=
  vecs.filter (fun v => !hasNaN v)

/-- The query validate_vector_index issues for one row. -/
def rowQuery (column : String) (refine_factor : ℕ) (vec : List F32) :
    NearestQuery :=
  ⟨column, vec, 1, 1, refine_factor⟩

/-- Whether one non-NaN row counts as a pass: the first distance of its
query result exists and has absolute value below 1e-6. -/
def rowPass (dataset : Dataset) (column : String) (refine_factor : ℕ)
    (vec : List F32) : Bool :=
  match dataset.nearest_distances (rowQuery column refine_factor vec) with
  | [] => false
  | distance :: _ => distance.absLt epsRecall

/-- Whether a validator outcome is the accuracy failure of the spec
taxonomy (a ValueError carrying the sanity-check message). -/
def isAccuracyError : Except PyError Unit → Bool
  | .error (.valueError _) => true
  | _ => false

/-- Whether a normalizer outcome is the TypeMismatch failure of the
spec taxonomy. -/
def isTypeMismatch : Except NormError FixedSizeListArray → Bool
  | .error (.typeMismatch _) => true
  | _ => false

/-- The canonical fixed-width float32 list array holding a logical
2-D batch of N rows of width D, stored as the row-major flat buffer. -/
def canonicalBatch (D N : ℕ) (flat : List F32) : FixedSizeListArray :=
  ⟨.float32, D, N, flat⟩

/-- Representation (a) of a logical float32 batch: the fixed-width list
array itself. -/
def listRep (D N : ℕ) (flat : List F32) : PAData :=
  .fixedSizeList (canonicalBatch D N flat)

/-- Representation (b) of a logical float32 batch: a rank-1 fixed-shape
tensor array wrapping the fixed-width list array as its storage. -/
def tensorRep (D N : ℕ) (flat : List F32) : PAData :=
  .fixedShapeTensor ⟨[D], canonicalBatch D N flat⟩

/-- Representation (c) of a logical float32 batch: a 2-D float32 numpy
array of shape (N, D) with the row-major data buffer. -/
def ndarrayRep (D N : ℕ) (flat : List F32) : PAData :=
  .ndarray ⟨.float32, [N, D], flat⟩

/-- A dataset whose vector column consists only of rows containing NaN
(the first row is all NaN, the second mixes NaN with a number). -/
def dsAllNaN : Dataset :=
  { to_table_col := fun _ => [[F32.nan], [F32.nan, F32.val 1]],
    sample_col := fun _ _ => [],
    nearest_distances := fun _ => [F32.val 0] }

/-- A dataset with two clean rows of which exactly one is its own
nearest neighbor at distance 0; the other comes back at distance 1. -/
def dsBoundary : Dataset :=
  { to_table_col := fun _ => [[F32.val 0], [F32.val 1]],
    sample_col := fun _ _ => [],
    nearest_distances := fun query =>
      if query.q = [F32.val 0] then [F32.val 0] else [F32.val 1] }

/-- A dataset with one NaN row and one clean row that passes. -/
def dsOneNaN : Dataset :=
  { to_table_col := fun _ => [[F32.nan, F32.val 2], [F32.val 3]],
    sample_col := fun _ _ => [],
    nearest_distances := fun _ => [F32.val 0] }

/-- A dataset with two clean rows: the first finds itself at distance 0,
the second only finds a point at distance 7. -/
def dsSelfQuery : Dataset :=
  { to_table_col := fun _ => [[F32.val 1], [F32.val 2]],
    sample_col := fun _ _ => [],
    nearest_distances := fun query =>
      if query.q = [F32.val 1] then [F32.val 0] else [F32.val 7] }

/-- A dataset collaborator whose nearest-neighbor query returns an empty
result set. -/
def dsEmptyQuery : Dataset :=
  { to_table_col := fun _ => [[F32.val 0]],
    sample_col := fun _ _ => [],
    nearest_distances := fun _ => [] }

/-- The rows surviving the NaN filter and the NaN rows partition the
working set. -/
theorem length_nonNaNRows_add (vecs : List (List F32)) :
    (nonNaNRows vecs).length + vecs.countP hasNaN = vecs.length := by
  induction vecs with
  | nil => simp [nonNaNRows]
  | cons vec rest ih =>
    cases hn : hasNaN vec <;>
      simp [nonNaNRows, List.filter_cons, List.countP_cons, hn] at ih ⊢ <;>
      omega

/-- Characterization of the validator loop when every issued query comes
back nonempty: it succeeds, the pass counter advances by the number of
non-NaN rows whose top-1 distance is below the threshold, the total
counter drops by the number of NaN rows, and the queries issued are
exactly one per non-NaN row, in order. -/
theorem validateLoop_ok_eq (dataset : Dataset) (column : String)
    (refine_factor : ℕ) :
    ∀ (vecs : List (List F32)) (passes total : ℕ),
      (∀ v ∈ vecs, hasNaN v = false →
          dataset.nearest_distances (rowQuery column refine_factor v) ≠ []) →
      validateLoop dataset column refine_factor vecs passes total =
        .ok (passes + (nonNaNRows vecs).countP (rowPass dataset column refine_factor),
             total - vecs.countP hasNaN,
             (nonNaNRows vecs).map (rowQuery column refine_factor)) := by
  intro vecs
  induction vecs with
  | nil =>
    intro passes total _
    simp [validateLoop, nonNaNRows]
  | cons vec rest ih =>
    intro passes total h
    have hrest : ∀ v ∈ rest, hasNaN v = false →
        dataset.nearest_distances (rowQuery column refine_factor v) ≠ [] :=
      fun v hv => h v (List.mem_cons_of_mem _ hv)
    rw [validateLoop]
    cases hn : hasNaN vec with
    | true =>
      rw [if_pos rfl, ih _ _ hrest]
      simp [nonNaNRows, List.filter_cons, List.countP_cons, hn]
      omega
    | false =>
      have hq := h vec (List.mem_cons_self _ _) hn
      rw [rowQuery] at hq
      cases hd : dataset.nearest_distances ⟨column, vec, 1, 1, refine_factor⟩ with
      | nil => exact absurd hd hq
      | cons d ds =>
        have hpass : rowPass dataset column refine_factor vec = d.absLt epsRecall := by
          rw [rowPass, rowQuery, hd]
        rw [if_neg (by simp)]
        dsimp only
        rw [ih _ _ hrest]
        cases hb : d.absLt epsRecall <;>
          simp [Except.map, nonNaNRows, List.filter_cons, List.countP_cons,
            hn, hpass, hb, rowQuery]
        omega

/-- C1: the claim states that a call in which every sampled vector
contains a NaN element (filtered total 0) raises the AccuracyError
rather than crashing on the undefined division passes/total.  The code
does the opposite: with total = 0 the expression passes / total raises
ZeroDivisionError, a crash outside the accuracy taxonomy.  This theorem
evaluates the embedding on such a dataset and exhibits the crash. -/
theorem validate_all_nan_zero_division :
    validate_vector_index dsAllNaN "vector" 5 none 1 =
      .error .zeroDivisionError ∧
    isAccuracyError (validate_vector_index dsAllNaN "vector" 5 none 1) =
      false := by
  exact ⟨by decide, by decide⟩

/-- C10: validate_vector_index reads the top-1 distance with an
unguarded first-element access, so a dataset collaborator whose query
returns an empty result set makes the call fail with IndexError — an
error outside the specified taxonomy, not the AccuracyError — instead of
counting the row as a failure. -/
theorem validate_empty_result_escape :
    validate_vector_index dsEmptyQuery "vec" 5 none 1 = .error .indexError ∧
    isAccuracyError (validate_vector_index dsEmptyQuery "vec" 5 none 1) =
      false := by
  exact ⟨by decide, by decide⟩

/-- C3: in validate_vector_index, every row whose vector contains a NaN
element is excluded from both the pass counter (the numerator) and the
total counter (the denominator), and no nearest-neighbor query is issued
for it: the loop ends with total equal to the number of NaN-free rows,
passes counting only NaN-free rows, and the query log holding exactly
one query per NaN-free row — in particular no logged query carries a
vector with a NaN element, so NaN rows are never counted as failures. -/
theorem validate_nan_rows_excluded (dataset : Dataset) (column : String)
    (refine_factor : ℕ) (vecs : List (List F32))
    (hq : ∀ v ∈ vecs, hasNaN v = false →
        dataset.nearest_distances (rowQuery column refine_factor v) ≠ []) :
    validateLoop dataset column refine_factor vecs 0 vecs.length =
      .ok ((nonNaNRows vecs).countP (rowPass dataset column refine_factor),
           (nonNaNRows vecs).length,
           (nonNaNRows vecs).map (rowQuery column refine_factor)) ∧
    ∀ query ∈ (nonNaNRows vecs).map (rowQuery column refine_factor),
      hasNaN query.q = false := by
  constructor
  · rw [validateLoop_ok_eq dataset column refine_factor vecs 0 vecs.length hq]
    have hlen := length_nonNaNRows_add vecs
    have h2 : vecs.length - List.countP hasNaN vecs = (nonNaNRows vecs).length := by
      omega
    rw [Nat.zero_add, h2]
  · intro query hmem
    rcases List.mem_map.mp hmem with ⟨v, hv, hveq⟩
    rcases List.mem_filter.mp hv with ⟨-, hnn⟩
    rw [← hveq]
    simpa using hnn

/-- Witness for C3 at a concrete dataset with one NaN row and one clean
row: the NaN row is skipped (no query), the clean row is queried once
and passes. -/
theorem validate_nan_rows_excluded_witness :
    validateLoop dsOneNaN "vec" 5 [[F32.nan, F32.val 2], [F32.val 3]] 0
        [[F32.nan, F32.val 2], [F32.val 3]].length =
      .ok (1, 1, [⟨"vec", [F32.val 3], 1, 1, 5⟩]) := by
  rw [(validate_nan_rows_excluded dsOneNaN "vec" 5
    [[F32.nan, F32.val 2], [F32.val 3]] (by decide)).1]
  decide

/-- C4: for every NaN-free row vector the validator issues exactly one
nearest-neighbor query, whose parameters are the column, the row vector
as the query, k = 1, nprobes = 1 and the given refine factor, and counts
the row as a pass exactly when the first (top-1) distance of the result
has absolute value below the fixed, non-configurable threshold 1e-6
(validate_vector_index takes no epsilon parameter). -/
theorem validate_row_query_params (dataset : Dataset) (column : String)
    (refine_factor : ℕ) (vecs : List (List F32)) (passes total : ℕ)
    (log : List NearestQuery)
    (hq : ∀ v ∈ vecs, hasNaN v = false →
        dataset.nearest_distances (rowQuery column refine_factor v) ≠ [])
    (hrun : validateLoop dataset column refine_factor vecs 0 vecs.length =
        .ok (passes, total, log)) :
    log = (nonNaNRows vecs).map (fun v =>
        { column := column, q := v, k := 1, nprobes := 1,
          refine_factor := refine_factor }) ∧
    passes = (nonNaNRows vecs).countP (fun v =>
        match dataset.nearest_distances
            { column := column, q := v, k := 1, nprobes := 1,
              refine_factor := refine_factor } with
        | [] => false
        | distance :: _ => distance.absLt (mkRat 1 1000000)) := by
  rw [validateLoop_ok_eq dataset column refine_factor vecs 0 vecs.length hq]
    at hrun
  simp only [Except.ok.injEq, Prod.mk.injEq] at hrun
  obtain ⟨hp, -, hl⟩ := hrun
  constructor
  · exact hl.symm
  · rw [← hp, Nat.zero_add]
    rfl

/-- Witness for C4 at a concrete two-row dataset: the log holds one
query per row with the stated parameters, and only the row whose top-1
distance is 0 is counted. -/
theorem validate_row_query_params_witness :
    ([⟨"vec", [F32.val 1], 1, 1, 5⟩, ⟨"vec", [F32.val 2], 1, 1, 5⟩] :
        List NearestQuery) =
      (nonNaNRows [[F32.val 1], [F32.val 2]]).map (fun v =>
        { column := "vec", q := v, k := 1, nprobes := 1,
          refine_factor := 5 }) ∧
    1 = (nonNaNRows [[F32.val 1], [F32.val 2]]).countP (fun v =>
        match dsSelfQuery.nearest_distances
            { column := "vec", q := v, k := 1, nprobes := 1,
              refine_factor := 5 } with
        | [] => false
        | distance :: _ => distance.absLt (mkRat 1 1000000)) := by
  exact validate_row_query_params dsSelfQuery "vec" 5
    [[F32.val 1], [F32.val 2]] 1 2
    [⟨"vec", [F32.val 1], 1, 1, 5⟩, ⟨"vec", [F32.val 2], 1, 1, 5⟩]
    (by decide) (by decide)

/-- C2: when the working set has at least one NaN-free row (and every
issued query returns a result), validate_vector_index raises the
accuracy ValueError exactly when passes / total is below the threshold —
so a run whose observed rate equals the threshold succeeds, the boundary
being inclusive — the raised message contains both the passes count and
the total count, and on success the call returns unit. -/
theorem validate_threshold_iff (dataset : Dataset) (column : String)
    (refine_factor : ℕ) (sample_size : Option ℕ) (pass_threshold : ℚ)
    (passes total : ℕ)
    (hp : passes = (nonNaNRows (workingSet dataset column sample_size)).countP
        (rowPass dataset column refine_factor))
    (ht : total = (nonNaNRows (workingSet dataset column sample_size)).length)
    (hq : ∀ v ∈ workingSet dataset column sample_size, hasNaN v = false →
        dataset.nearest_distances (rowQuery column refine_factor v) ≠ [])
    (hnn : ∃ v ∈ workingSet dataset column sample_size, hasNaN v = false) :
    ((passes : ℚ) / (total : ℚ) < pass_threshold →
      validate_vector_index dataset column refine_factor sample_size
          pass_threshold =
        .error (.valueError (validationMsg passes total))) ∧
    (¬ (passes : ℚ) / (total : ℚ) < pass_threshold →
      validate_vector_index dataset column refine_factor sample_size
          pass_threshold = .ok ()) ∧
    (∃ pre mid post, (validationMsg passes total).data =
      pre ++ (toString passes).data ++ mid ++ (toString total).data ++ post) := by
  have hloop := validateLoop_ok_eq dataset column refine_factor
    (workingSet dataset column sample_size)
    0 (workingSet dataset column sample_size).length hq
  have hlen := length_nonNaNRows_add (workingSet dataset column sample_size)
  have htotal : (workingSet dataset column sample_size).length -
      List.countP hasNaN (workingSet dataset column sample_size) = total := by
    rw [ht]; omega
  have hpos : total ≠ 0 := by
    rw [ht]
    rcases hnn with ⟨v, hv, hvn⟩
    have hmem : v ∈ nonNaNRows (workingSet dataset column sample_size) :=
      List.mem_filter.mpr ⟨hv, by simp [hvn]⟩
    have := List.length_pos.mpr (List.ne_nil_of_mem hmem)
    omega
  have hvalid : validate_vector_index dataset column refine_factor sample_size
      pass_threshold =
      (if (passes : ℚ) / (total : ℚ) < pass_threshold then
        .error (.valueError (validationMsg passes total))
      else .ok ()) := by
    rw [validate_vector_index]
    rw [hloop]
    dsimp only
    rw [Nat.zero_add, ← hp, htotal, if_neg hpos]
  refine ⟨fun hlt => by rw [hvalid, if_pos hlt],
    fun hge => by rw [hvalid, if_neg hge],
    "Vector index failed sanity check, only ".data, "/".data, " passed".data,
    ?_⟩
  simp [validationMsg, String.data_append]

/-- Witness for C2 at a concrete dataset with two clean rows of which
one passes and threshold exactly 1/2: the observed rate equals the
threshold, so the call succeeds (inclusive boundary). -/
theorem validate_threshold_iff_witness :
    validate_vector_index dsBoundary "vec" 5 none (1 / 2 : ℚ) = .ok () := by
  refine (validate_threshold_iff dsBoundary "vec" 5 none (1 / 2 : ℚ) 1 2
    (by decide) (by decide) (by decide) (by decide)).2.1 ?_
  norm_num

/-- Success case of the from_arrays rewrap: with a positive width D
dividing the buffer length N * D, the result is a float32 list array of
width D and length N holding the buffer verbatim. -/
theorem from_arrays_ok (N D : ℕ) (flat : List F32) (hD : 0 < D)
    (hlen : flat.length = N * D) :
    FixedSizeListArray.from_arrays flat D = .ok ⟨.float32, D, N, flat⟩ := by
  rw [FixedSizeListArray.from_arrays, if_neg (by omega),
    if_neg (by simp [hlen, Nat.mul_mod_left])]
  simp [hlen, Nat.mul_div_cancel _ hD]

/-- C8 (amended to D ≥ 1): a 2-D float32 numpy array of shape (N, D)
with positive width D is flattened row-major and rewrapped as a
fixed-width float32 list array of list-width D and length N, with the
buffer passed through verbatim — the conversion never reshapes N, N = 0
passes through, and no element value is ever inspected (the buffer is
universally quantified, NaN included).  For D = 0 see the
counterexample: the rewrap rejects a non-positive list width. -/
theorem normalize_ndarray_rewrap (N D : ℕ) (data : List F32) (hD : 0 < D)
    (hlen : data.length = N * D) :
    _to_fixed_size_list (PAData.ndarray ⟨.float32, [N, D], data⟩) =
      .ok ⟨.float32, D, N, data⟩ := by
  rw [_to_fixed_size_list, if_neg (by simp), if_neg (by simp)]
  simpa using from_arrays_ok N D data hD hlen

/-- Counterexample to C8 as stated: a 2-D float32 numpy array of shape
(2, 0) is within the claim's scope ("for every 2-D float32 native
numeric array"), but the conversion errors out instead of producing a
list array of length 2: the flattened buffer is empty, the requested
list width is 0, and the rewrap rejects a non-positive width (nor could
any rewrap recover N = 2 from an empty buffer and width 0). -/
theorem normalize_ndarray_rewrap_cex :
    _to_fixed_size_list (PAData.ndarray ⟨.float32, [2, 0], []⟩) =
      .error .invalidListSize := by decide

/-- Witness for C8: an empty batch (N = 0) passes through, and a batch
containing NaN values is rewrapped verbatim without value inspection. -/
theorem normalize_ndarray_rewrap_witness :
    _to_fixed_size_list (PAData.ndarray ⟨.float32, [0, 3], []⟩) =
      .ok ⟨.float32, 3, 0, []⟩ ∧
    _to_fixed_size_list
        (PAData.ndarray ⟨.float32, [1, 2], [F32.nan, F32.val 5]⟩) =
      .ok ⟨.float32, 2, 1, [F32.nan, F32.val 5]⟩ := by
  exact ⟨normalize_ndarray_rewrap 0 3 [] (by decide) (by decide),
    normalize_ndarray_rewrap 1 2 [F32.nan, F32.val 5] (by decide) (by decide)⟩

/-- C5 (amended to D ≥ 1): the three accepted representations of one
logical float32 batch — the fixed-width list array itself, the rank-1
fixed-shape tensor wrapping it, and the 2-D float32 numpy array of shape
(N, D) over the same row-major buffer — all normalize to the identical
canonical list array.  For D = 0 see the counterexample: the numpy
variant errors while the list variant succeeds. -/
theorem normalize_rep_equiv (D N : ℕ) (flat : List F32) (hD : 0 < D)
    (hlen : flat.length = N * D) :
    _to_fixed_size_list (listRep D N flat) = .ok (canonicalBatch D N flat) ∧
    _to_fixed_size_list (tensorRep D N flat) = .ok (canonicalBatch D N flat) ∧
    _to_fixed_size_list (ndarrayRep D N flat) =
      .ok (canonicalBatch D N flat) := by
  refine ⟨by simp [listRep, canonicalBatch, _to_fixed_size_list,
      _to_fixed_size_list_base],
    by simp [tensorRep, canonicalBatch, _to_fixed_size_list,
      _to_fixed_size_list_base],
    ?_⟩
  rw [ndarrayRep, canonicalBatch]
  exact normalize_ndarray_rewrap N D flat hD hlen

/-- Counterexample to C5 as stated: for the logical batch with N = 1
rows and D = 0 columns (empty buffer), the list-array representation
normalizes successfully but the numpy representation fails, so the three
representations do not all yield the same output. -/
theorem normalize_rep_equiv_cex :
    _to_fixed_size_list (listRep 0 1 []) = .ok (canonicalBatch 0 1 []) ∧
    _to_fixed_size_list (ndarrayRep 0 1 []) = .error .invalidListSize := by
  exact ⟨by decide, by decide⟩

/-- Witness for C5 at the concrete 2 x 3 batch. -/
theorem normalize_rep_equiv_witness :
    _to_fixed_size_list (listRep 3 2
        [F32.val 1, F32.val 2, F32.val 3, F32.val 4, F32.val 5, F32.val 6]) =
      .ok (canonicalBatch 3 2
        [F32.val 1, F32.val 2, F32.val 3, F32.val 4, F32.val 5, F32.val 6]) ∧
    _to_fixed_size_list (tensorRep 3 2
        [F32.val 1, F32.val 2, F32.val 3, F32.val 4, F32.val 5, F32.val 6]) =
      .ok (canonicalBatch 3 2
        [F32.val 1, F32.val 2, F32.val 3, F32.val 4, F32.val 5, F32.val 6]) ∧
    _to_fixed_size_list (ndarrayRep 3 2
        [F32.val 1, F32.val 2, F32.val 3, F32.val 4, F32.val 5, F32.val 6]) =
      .ok (canonicalBatch 3 2
        [F32.val 1, F32.val 2, F32.val 3, F32.val 4, F32.val 5, F32.val 6]) := by
  exact normalize_rep_equiv 3 2
    [F32.val 1, F32.val 2, F32.val 3, F32.val 4, F32.val 5, F32.val 6]
    (by decide) (by decide)

/-- C9: the normalizer is idempotent — every successful output is a
float32 fixed-width list array, and feeding it back in returns the very
same array unchanged (it hits the already-canonical branch). -/
theorem normalize_idempotent (d : PAData) (a : FixedSizeListArray)
    (h : _to_fixed_size_list d = .ok a) :
    a.valueType = .float32 ∧
    _to_fixed_size_list (.fixedSizeList a) = .ok a := by
  have hft : a.valueType = .float32 := by
    cases d with
    | fixedSizeList b =>
      rw [_to_fixed_size_list, _to_fixed_size_list_base] at h
      split_ifs at h with h1
      injection h with h2
      subst h2
      exact not_not.mp h1
    | fixedShapeTensor t =>
      rw [_to_fixed_size_list, _to_fixed_size_list_base] at h
      split_ifs at h with h1 h2
      injection h with h3
      subst h3
      exact not_not.mp h2
    | ndarray m =>
      rw [_to_fixed_size_list, FixedSizeListArray.from_arrays] at h
      split_ifs at h
      injection h with h5
      subst h5
      rfl
    | other =>
      rw [_to_fixed_size_list] at h
      exact Except.noConfusion h
  refine ⟨hft, ?_⟩
  rw [_to_fixed_size_list, _to_fixed_size_list_base]
  simp [hft]

/-- Witness for C9 at a concrete canonical array. -/
theorem normalize_idempotent_witness :
    (⟨.float32, 2, 1, [F32.val 1, F32.val 2]⟩ :
        FixedSizeListArray).valueType = .float32 ∧
    _to_fixed_size_list (.fixedSizeList
        ⟨.float32, 2, 1, [F32.val 1, F32.val 2]⟩) =
      .ok ⟨.float32, 2, 1, [F32.val 1, F32.val 2]⟩ := by
  exact normalize_idempotent
    (.fixedShapeTensor ⟨[2], ⟨.float32, 2, 1, [F32.val 1, F32.val 2]⟩⟩)
    ⟨.float32, 2, 1, [F32.val 1, F32.val 2]⟩ (by decide)

/-- C6 (amended for check precedence): the normalizer's failure
taxonomy, with the rank check preceding the element-type check on the
variants that have both.  A list array of non-float32 element type fails
with TypeMismatch; a tensor array of non-1-D per-row shape fails with
ShapeError, and one of 1-D shape but non-float32 storage fails with
TypeMismatch; a numpy array of rank other than 2 fails with ShapeError,
and one of rank 2 but non-float32 dtype fails with TypeMismatch; any
other input variant fails with UnsupportedType. -/
theorem normalize_error_taxonomy (a : FixedSizeListArray)
    (t : FixedShapeTensorArray) (m : NDArray) :
    (a.valueType ≠ .float32 →
      _to_fixed_size_list (.fixedSizeList a) =
        .error (.typeMismatch a.valueType)) ∧
    (t.shape.length ≠ 1 →
      _to_fixed_size_list (.fixedShapeTensor t) =
        .error (.shapeError t.shape.length)) ∧
    (t.shape.length = 1 → t.storage.valueType ≠ .float32 →
      _to_fixed_size_list (.fixedShapeTensor t) =
        .error (.typeMismatch t.storage.valueType)) ∧
    (m.shape.length ≠ 2 →
      _to_fixed_size_list (.ndarray m) =
        .error (.shapeError m.shape.length)) ∧
    (m.shape.length = 2 → m.dtype ≠ .float32 →
      _to_fixed_size_list (.ndarray m) =
        .error (.typeMismatch m.dtype)) ∧
    _to_fixed_size_list PAData.other = .error .unsupportedType := by
  refine ⟨fun h1 => ?_, fun h2 => ?_, fun h3 h4 => ?_, fun h5 => ?_,
    fun h6 h7 => ?_, rfl⟩ <;>
    simp [_to_fixed_size_list, _to_fixed_size_list_base, *]

/-- Counterexample to C6 as stated: a rank-3 int64 numpy array has a
non-float32 element type, yet the normalizer raises ShapeError, not
TypeMismatch — the rank check runs first, so the claimed rule that any
non-float32 input fails with TypeMismatch is false on inputs with both
defects. -/
theorem normalize_error_taxonomy_cex :
    (⟨.int64, [2, 2, 2], []⟩ : NDArray).dtype ≠ .float32 ∧
    _to_fixed_size_list (.ndarray ⟨.int64, [2, 2, 2], []⟩) =
      .error (.shapeError 3) ∧
    isTypeMismatch (_to_fixed_size_list (.ndarray ⟨.int64, [2, 2, 2], []⟩)) =
      false := by
  exact ⟨by decide, by decide, by decide⟩

/-- Witness for C6 covering every arm of the taxonomy at concrete
inputs. -/
theorem normalize_error_taxonomy_witness :
    _to_fixed_size_list (.fixedSizeList ⟨.int32, 2, 0, []⟩) =
      .error (.typeMismatch .int32) ∧
    _to_fixed_size_list (.fixedShapeTensor ⟨[2, 2], ⟨.float32, 4, 1, []⟩⟩) =
      .error (.shapeError 2) ∧
    _to_fixed_size_list (.fixedShapeTensor ⟨[4], ⟨.float64, 4, 1, []⟩⟩) =
      .error (.typeMismatch .float64) ∧
    _to_fixed_size_list (.ndarray ⟨.float32, [5], []⟩) =
      .error (.shapeError 1) ∧
    _to_fixed_size_list (.ndarray ⟨.float64, [1, 2], []⟩) =
      .error (.typeMismatch .float64) ∧
    _to_fixed_size_list PAData.other = .error .unsupportedType := by
  refine ⟨(normalize_error_taxonomy ⟨.int32, 2, 0, []⟩
      ⟨[2, 2], ⟨.float32, 4, 1, []⟩⟩ ⟨.float32, [5], []⟩).1 (by decide),
    (normalize_error_taxonomy ⟨.int32, 2, 0, []⟩
      ⟨[2, 2], ⟨.float32, 4, 1, []⟩⟩ ⟨.float32, [5], []⟩).2.1 (by decide),
    (normalize_error_taxonomy ⟨.int32, 2, 0, []⟩
      ⟨[4], ⟨.float64, 4, 1, []⟩⟩ ⟨.float32, [5], []⟩).2.2.1 (by decide)
      (by decide),
    (normalize_error_taxonomy ⟨.int32, 2, 0, []⟩
      ⟨[2, 2], ⟨.float32, 4, 1, []⟩⟩ ⟨.float32, [5], []⟩).2.2.2.1 (by decide),
    (normalize_error_taxonomy ⟨.int32, 2, 0, []⟩
      ⟨[2, 2], ⟨.float32, 4, 1, []⟩⟩ ⟨.float64, [1, 2], []⟩).2.2.2.2.1
      (by decide) (by decide),
    (normalize_error_taxonomy ⟨.int32, 2, 0, []⟩
      ⟨[2, 2], ⟨.float32, 4, 1, []⟩⟩ ⟨.float32, [5], []⟩).2.2.2.2.2⟩

/-- Success characterization of the metric normalizer: the ok result is
determined by the lowercased input alone. -/
theorem normalize_metric_ok_iff (s v : String) :
    _normalize_metric_type s = .ok v ↔
      ((if pyLower s = "euclidean" then "l2" else pyLower s) ∈
          (["l2", "dot", "cosine"] : List String) ∧
        v = (if pyLower s = "euclidean" then "l2" else pyLower s)) := by
  simp only [_normalize_metric_type]
  by_cases hm : (if pyLower s = "euclidean" then "l2" else pyLower s) ∈
      (["l2", "dot", "cosine"] : List String)
  · rw [if_neg (not_not.mpr hm)]
    constructor
    · intro h
      injection h with h1
      exact ⟨hm, h1.symm⟩
    · rintro ⟨-, rfl⟩
      rfl
  · rw [if_pos hm]
    constructor
    · intro h
      exact Except.noConfusion h
    · rintro ⟨hmem, -⟩
      exact absurd hmem hm

/-- C7: the metric normalizer is case-insensitive (acceptance and value
depend only on the lowercased input), maps any casing of euclidean to
l2, returns the lowercased name on the accepted set, fails with the
invalid-argument ValueError on anything else — and KMeans construction
performs this normalization first, so an invalid metric is rejected
without the native model ever being constructed, while a valid one
reaches the native model in normalized form. -/
theorem metric_type_normalization :
    (∀ s₁ s₂ : String, pyLower s₁ = pyLower s₂ →
      ∀ v, (_normalize_metric_type s₁ = .ok v ↔
        _normalize_metric_type s₂ = .ok v)) ∧
    (∀ s : String, pyLower s = "euclidean" →
      _normalize_metric_type s = .ok "l2") ∧
    (∀ s : String, pyLower s ∈ (["l2", "dot", "cosine"] : List String) →
      _normalize_metric_type s = .ok (pyLower s)) ∧
    (∀ s : String,
      pyLower s ∉ (["l2", "dot", "cosine", "euclidean"] : List String) →
      _normalize_metric_type s =
        .error (.valueError ("Invalid metric_type: " ++ s))) ∧
    (∀ (k max_iters : ℕ) (c : Option FixedSizeListArray) (s : String)
        (e : PyError), _normalize_metric_type s = .error e →
      KMeans_init k s max_iters c = .error e) ∧
    (∀ (k max_iters : ℕ) (c : Option FixedSizeListArray) (s v : String),
      _normalize_metric_type s = .ok v →
      KMeans_init k s max_iters c = .ok ⟨k, v, ⟨k, v, max_iters, c⟩⟩) := by
  refine ⟨?_, ?_, ?_, ?_, ?_, ?_⟩
  · intro s₁ s₂ h v
    rw [normalize_metric_ok_iff, normalize_metric_ok_iff, h]
  · intro s h
    rw [_normalize_metric_type, h]
    simp
  · intro s h
    have hne : pyLower s ≠ "euclidean" := by
      intro he
      rw [he] at h
      simp at h
    rw [_normalize_metric_type]
    simp [hne, h]
  · intro s h
    simp only [List.mem_cons, not_or] at h
    obtain ⟨h1, h2, h3, h4, -⟩ := h
    rw [_normalize_metric_type]
    simp [h1, h2, h3, h4]
  · intro k max_iters c s e h
    rw [KMeans_init, h]
  · intro k max_iters c s v h
    rw [KMeans_init, h]

/-- Witness for C7 at concrete metric strings: uppercase euclidean,
mixed-case dot, a rejected name, and KMeans construction on both an
invalid and a valid metric. -/
theorem metric_type_normalization_witness :
    _normalize_metric_type "EUCLIDEAN" = .ok "l2" ∧
    _normalize_metric_type "Dot" = .ok "dot" ∧
    _normalize_metric_type "manhattan" =
      .error (.valueError ("Invalid metric_type: " ++ "manhattan")) ∧
    KMeans_init 8 "manhattan" 50 none =
      .error (.valueError ("Invalid metric_type: " ++ "manhattan")) ∧
    KMeans_init 8 "EUCLIDEAN" 50 none =
      .ok ⟨8, "l2", ⟨8, "l2", 50, none⟩⟩ := by
  obtain ⟨-, h2, h3, h4, h5, h6⟩ := metric_type_normalization
  exact ⟨h2 "EUCLIDEAN" (by decide), h3 "Dot" (by decide),
    h4 "manhattan" (by decide),
    h5 8 50 none "manhattan" _ (h4 "manhattan" (by decide)),
    h6 8 50 none "EUCLIDEAN" "l2" (h2 "EUCLIDEAN" (by decide))⟩

end LanceUtil
